import Mathlib

/-!
Verification development for the preflight performance pipeline
(`preflight.py`): the accelerate-stop distance model, the atmospheric
model, the METAR weather-report parser, the reciprocal-runway transform,
and the per-runway performance report assembler.

Python floats are modelled as exact reals, Python `int` values as `ℤ`/`ℕ`,
and fallible operations (such as `int()` applied to a non-numeric string)
as `Option`-valued functions.
-/

namespace Preflight

/-- Python `int()` applied to a real value: truncation toward zero. -/
noncomputable def pyInt (x : ℝ) : ℤ := if 0 ≤ x then ⌊x⌋ else ⌈x⌉

/-- Python `round()` applied to a real value: round to nearest, ties to even. -/
noncomputable def pyRound (x : ℝ) : ℤ :=
  if Int.fract x < 1/2 then ⌊x⌋
  else if Int.fract x = 1/2 then (if Even ⌊x⌋ then ⌊x⌋ else ⌊x⌋ + 1)
  else ⌊x⌋ + 1

/-- Python `%` on reals (positive modulus case): `a - b * ⌊a / b⌋`. -/
noncomputable def pyMod (a b : ℝ) : ℝ := a - b * ⌊a / b⌋

/-! ### Accelerate-stop distance model (`accelerate_stop_distance`, lines 15-114)

The local factor computations of the Python function are lifted to named
definitions; `accelerate_stop_distance` applies them to the clamped inputs
exactly as the source does. -/

/-- Temperature factor: ratio of absolute (Rankine) temperatures (lines 44-46). -/
noncomputable def temp_factor (temperature_f : ℝ) : ℝ :=
  (temperature_f + 459.67) / (59.0 + 459.67)

/-- Altitude factor (lines 50-74), including the below-sea-level bonus branch and
the (unreachable after clamping) `4.0` above-tropopause branch. -/
noncomputable def altitude_factor (pressure_altitude_ft : ℝ) : ℝ :=
  if pressure_altitude_ft ≥ -2000 then
    let r := max 0.1 (min 1.5 (1.0 - 6.8756e-6 * pressure_altitude_ft))
    let af := r ^ (-4.2561 : ℝ)
    if pressure_altitude_ft < 0 then
      max 0.5 (af * (1.0 - (|pressure_altitude_ft| / 10000.0) * 0.1))
    else af
  else if pressure_altitude_ft ≤ 36089 then
    (1.0 - 6.8756e-6 * pressure_altitude_ft) ^ (-4.2561 : ℝ)
  else 4.0

/-- Weight factor: linear ratio to the 4400 lb standard weight (line 78). -/
noncomputable def weight_factor (gross_weight_lbs : ℝ) : ℝ := gross_weight_lbs / 4400.0

/-- Headwind factor: 2.5 % reduction per mph, clamped to `[0.4, 1.0]` (lines 82-83). -/
noncomputable def headwind_factor (headwind_mph : ℝ) : ℝ :=
  max 0.4 (min 1.0 (1.0 - headwind_mph * 0.025))

/-- Quadratic temperature-deviation correction (lines 87-88). -/
noncomputable def temp_correction (temperature_f : ℝ) : ℝ :=
  1.0 + ((temperature_f - 59.0) / 80.0) ^ 2 * 0.08

/-- Altitude correction with asymmetric branch for negative altitude (lines 91-96). -/
noncomputable def altitude_correction (pressure_altitude_ft : ℝ) : ℝ :=
  if pressure_altitude_ft ≥ 0 then
    1.0 + (pressure_altitude_ft / 8000.0) ^ (1.2 : ℝ) * 0.12
  else
    max 0.7 (1.0 - (|pressure_altitude_ft| / 8000.0) ^ (0.8 : ℝ) * 0.08)

/-- Quadratic weight-deviation correction (lines 98-99). -/
noncomputable def weight_correction (gross_weight_lbs : ℝ) : ℝ :=
  1.0 + ((gross_weight_lbs - 4400.0) / 1000.0) ^ 2 * 0.05

/-- `accelerate_stop_distance` (lines 15-114): clamp the four inputs to their
documented ranges, multiply the 1800 ft baseline by the seven factors, clamp the
product to `[600, 8000]` and round. -/
noncomputable def accelerate_stop_distance (temperature_f pressure_altitude_ft
    gross_weight_lbs headwind_mph : ℝ) : ℤ :=
  let temperature_f := max (-60) (min 140 temperature_f)
  let pressure_altitude_ft := max (-2000) (min 15000 pressure_altitude_ft)
  let gross_weight_lbs := max 3000 (min 5600 gross_weight_lbs)
  let headwind_mph := max 0 (min 25 headwind_mph)
  pyRound (max 600 (min 8000
    (1800.0 * temp_factor temperature_f * altitude_factor pressure_altitude_ft *
      weight_factor gross_weight_lbs * headwind_factor headwind_mph *
      temp_correction temperature_f * altitude_correction pressure_altitude_ft *
      weight_correction gross_weight_lbs)))

/-! ### Atmospheric model (lines 241-248) -/

/-- `pressure_altitude` (lines 241-242). -/
noncomputable def pressure_altitude (altitude altimeter : ℝ) : ℤ :=
  pyInt (altitude + 1000 * (29.92 - altimeter))

/-- `density_altitude` (lines 244-248). -/
noncomputable def density_altitude (elev altimeter oat : ℝ) : ℤ :=
  let tstd := 15 - elev / 1000 * 2
  let pa := pressure_altitude elev altimeter
  pyInt (↑pa + (oat - tstd) * 120)

/-! ### Wind-adjusted distance regressions (lines 279-301) -/

/-- `headwind_takeoff` (lines 279-288): wind-adjusted takeoff distance from
headwind `w` and no-wind distance `t`. -/
noncomputable def headwind_takeoff (w t : ℝ) : ℤ :=
  pyInt (-1.345024e2 + 1.212677 * t - 1.580498 * w
    - 1.001003e-4 * t ^ 2
    + 1.770352e-2 * w ^ 2
    - 2.179669e-2 * t * w
    + 1.417450e-8 * t ^ 3
    + 7.076594e-7 * t ^ 2 * w
    + 3.379797e-4 * t * w ^ 2
    - 1.500000e-2 * w ^ 3)

/-- `headwind_land` (lines 290-301): wind-adjusted landing distance from
headwind `w` and no-wind distance `l`. -/
noncomputable def headwind_land (w l : ℝ) : ℤ :=
  pyInt (-7.384758e2
    + 2.398023 * l
    - 4.749474e-1 * w
    - 8.651134e-4 * l ^ 2
    - 1.528699e-2 * l * w
    - 3.277356e-2 * w ^ 2
    + 1.751042e-7 * l ^ 3
    + 2.111363e-6 * l ^ 2 * w
    + 3.409930e-6 * l * w ^ 2
    + 2.424242e-3 * w ^ 3)

/-! ### Reciprocal runway transform (`rev_name`, lines 303-316) -/

/-- Decimal value of a digit character. -/
def digitVal (c : Char) : ℕ := c.toNat - 48

/-- Python `int()` applied to a string of decimal digits; `none` models the
`ValueError` raised on a non-numeric string. -/
def pyIntDigits (l : List Char) : Option ℕ :=
  if !l.isEmpty && l.all Char.isDigit then
    some (l.foldl (fun a c => a * 10 + digitVal c) 0)
  else none

/-- `rev_name` (lines 303-316): add 18 modulo 36 to the leading two-digit runway
number (wrapping 0 to 36, rendering without zero padding) and swap an `L`
suffix with `R` (any other suffix character becomes `L`).  `none` models the
exception raised when the leading characters are not numeric. -/
def rev_name (name : String) : Option String :=
  match pyIntDigits (name.toList.take 2) with
  | none => none
  | some v =>
    let nd := (v + 18) % 36
    let nd := if nd = 0 then 36 else nd
    if name.length ≤ 2 then some (Nat.repr nd)
    else match name.toList.get? 2 with
      | some c => if c = 'L' then some (Nat.repr nd ++ ("R" : String))
                  else some (Nat.repr nd ++ ("L" : String))
      | none => none

/-- Zero-padded two-digit rendering of a runway number, as designators appear in
the runway data (`09`, `27L`, ...). -/
def pad2 (n : ℕ) : String :=
  if n < 10 then ("0" : String) ++ Nat.repr n else Nat.repr n

/-- Reciprocal heading (line 325): `(heading + 180) % 360`. -/
noncomputable def revHeading (h : ℝ) : ℝ := pyMod (h + 180) 360

/-! ### METAR parser (`parse_metar`, lines 176-239)

Each `re.search` call of the source is modelled by a dedicated matcher:
a function that tries to match the pattern at one position, and a scanner
`searchWB` that, like `re.search`, returns the leftmost match, skipping
positions that fail the leading `\b` word-boundary assertion (every pattern
in the source starts with `\b` followed by a word character). -/

/-- A regex word character (`\w`): letter, digit or underscore (ASCII inputs). -/
def isWordChar (c : Char) : Bool := c.isAlphanum || c = '_'

/-- Trailing `\b` after a word character: end of input or a non-word character. -/
def endBoundary : List Char → Bool
  | [] => true
  | c :: _ => !isWordChar c

/-- Consume one decimal digit. -/
def takeDigit : List Char → Option (ℕ × List Char)
  | c :: rest => if c.isDigit then some (digitVal c, rest) else none
  | [] => none

/-- Consume two decimal digits, keeping the matched characters. -/
def take2DigitChars : List Char → Option ((Char × Char) × List Char)
  | a :: b :: rest =>
    if a.isDigit && b.isDigit then some ((a, b), rest) else none
  | _ => none

/-- Consume three decimal digits, keeping the matched characters. -/
def take3DigitChars : List Char → Option ((Char × Char × Char) × List Char)
  | a :: b :: c :: rest =>
    if a.isDigit && b.isDigit && c.isDigit then some ((a, b, c), rest) else none
  | _ => none

/-- Consume two decimal digits as a number. -/
def take2Digits (l : List Char) : Option (ℕ × List Char) := do
  let (a, l) ← takeDigit l
  let (b, l) ← takeDigit l
  pure (a * 10 + b, l)

/-- Consume three decimal digits as a number. -/
def take3Digits (l : List Char) : Option (ℕ × List Char) := do
  let (a, l) ← takeDigit l
  let (b, l) ← takeDigit l
  let (c, l) ← takeDigit l
  pure (a * 100 + b * 10 + c, l)

/-- Consume one expected character. -/
def expectChar (c : Char) : List Char → Option (List Char)
  | x :: rest => if x = c then some rest else none
  | [] => none

/-- Leftmost-match scanner: try the matcher at every position whose leading
word-boundary assertion holds (the previous character, if any, is a non-word
character), exactly as `re.search` does for patterns starting with `\b` and a
word character. -/
def searchWB {α : Type} (tryAt : List Char → Option α) : Bool → List Char → Option α
  | prevWord, [] => if prevWord then none else tryAt []
  | prevWord, c :: rest =>
    match (if prevWord then none else tryAt (c :: rest)) with
    | some r => some r
    | none => searchWB tryAt (isWordChar c) rest

/-- Matcher for the timestamp pattern `\b(\d{2})(\d{2})(\d{2})Z\b` (line 197),
returning the three matched two-digit groups. -/
def timeAt (l : List Char) : Option ((Char × Char) × (Char × Char) × (Char × Char)) := do
  let (d, l) ← take2DigitChars l
  let (h, l) ← take2DigitChars l
  let (m, l) ← take2DigitChars l
  let l ← expectChar 'Z' l
  if endBoundary l then pure (d, h, m) else none

/-- Matcher for the optional gust group and unit: `(G\d{2})?KT\b`.  The greedy
gust alternative is tried first; on failure the empty alternative requires `KT`
immediately (which cannot start with `G`, so no further backtracking arises). -/
def windTail (l : List Char) : Option (Option ℕ) :=
  match l with
  | 'G' :: rest =>
    (match take2Digits rest with
     | some (g, r) =>
       (match (expectChar 'K' r).bind (expectChar 'T') with
        | some r2 => if endBoundary r2 then some (some g) else none
        | none => none)
     | none => none)
  | _ =>
    match (expectChar 'K' l).bind (expectChar 'T') with
    | some r2 => if endBoundary r2 then some none else none
    | none => none

/-- Matcher for the wind pattern `\b(\d{3}|VRB)(\d{2})(G\d{2})?KT\b` (line 203).
Returns (direction: `none` for `VRB`), speed, optional gust.  The `\d{3}`
alternative is tried first; its first character (a digit) is disjoint from `V`,
so the committed alternation is equivalent to backtracking. -/
def windAt (l : List Char) : Option (Option ℕ × ℕ × Option ℕ) := do
  let (dir, l1) ←
    (match take3Digits l with
     | some (n, r) => some (some n, r)
     | none => do
       let r ← expectChar 'V' l
       let r ← expectChar 'R' r
       let r ← expectChar 'B' r
       pure ((none : Option ℕ), r))
  let (sp, l2) ← take2Digits l1
  let g ← windTail l2
  pure (dir, sp, g)

/-- Matcher for the variable-wind pattern `\b(\d{3})V(\d{3})\b` (line 218),
keeping the matched digit groups. -/
def varWindAt (l : List Char) : Option ((Char × Char × Char) × (Char × Char × Char)) := do
  let (a, l) ← take3DigitChars l
  let l ← expectChar 'V' l
  let (b, l) ← take3DigitChars l
  if endBoundary l then pure (a, b) else none

/-- Matcher for one signed temperature group `M?\d{2}`; `M` maps to a minus
sign as in `int(t.replace('M', '-'))` (line 226). -/
def signedTemp (l : List Char) : Option (ℤ × List Char) :=
  match l with
  | 'M' :: rest => do
    let (n, r) ← take2Digits rest
    pure (-(n : ℤ), r)
  | _ => do
    let (n, r) ← take2Digits l
    pure ((n : ℤ), r)

/-- Matcher for the temperature pattern `\b(M?\d{2})/(M?\d{2})\b` (line 223). -/
def tempAt (l : List Char) : Option (ℤ × ℤ) := do
  let (t, l) ← signedTemp l
  let l ← expectChar '/' l
  let (d, l) ← signedTemp l
  if endBoundary l then pure (t, d) else none

/-- Matcher for the altimeter pattern `\bA(\d{4})\b` (line 230); the four digits
are read as whole inches and hundredths (line 232). -/
def pressureAt (l : List Char) : Option ℚ := do
  let l ← expectChar 'A' l
  let (a, l) ← takeDigit l
  let (b, l) ← takeDigit l
  let (c, l) ← takeDigit l
  let (d, l) ← takeDigit l
  if endBoundary l then
    pure ((a * 10 + b : ℚ) + (c * 10 + d : ℚ) / 100)
  else none

/-- Matcher for the remarks pattern `\bRMK\s+(.*)` (line 235); the captured text
is stripped (line 237), so capturing after the first whitespace character and
trimming is equivalent. -/
def rmkAt (l : List Char) : Option String := do
  let l ← expectChar 'R' l
  let l ← expectChar 'M' l
  let l ← expectChar 'K' l
  match l with
  | c :: rest => if c.isWhitespace then some (String.mk rest).trim else none
  | [] => none

/-- First whitespace-delimited token of the report (`metar.split()`, line 190;
`tokens[0]`, lines 193-194); `none` when the report has no tokens. -/
def firstToken (l : List Char) : Option String :=
  let l2 := l.dropWhile Char.isWhitespace
  if l2.isEmpty then none
  else some (String.mk (l2.takeWhile (fun c => !c.isWhitespace)))

/-- The structured observation produced by `parse_metar` (lines 177-188):
field defaults are direction 0, speeds 0, everything else absent. -/
structure MetarResult where
  airport : Option String
  time_utc : Option String
  wind_direction : ℕ
  wind_speed_kt : ℕ
  wind_gust_kt : ℕ
  variable_wind_dir : Option String
  temperature_c : Option ℤ
  dewpoint_c : Option ℤ
  pressure_inhg : Option ℚ
  remarks : Option String
  deriving DecidableEq

/-- Render the timestamp as the source does: `f"{day}T{hour}:{minute}Z"`. -/
def renderTime (t : (Char × Char) × (Char × Char) × (Char × Char)) : String :=
  String.mk [t.1.1, t.1.2, 'T', t.2.1.1, t.2.1.2, ':', t.2.2.1, t.2.2.2, 'Z']

/-- Render the variable-wind range as the source does: `f"{a}V{b}"`. -/
def renderVarWind (t : (Char × Char × Char) × (Char × Char × Char)) : String :=
  String.mk [t.1.1, t.1.2.1, t.1.2.2, 'V', t.2.1, t.2.2.1, t.2.2.2]

/-- `parse_metar` (lines 176-239).  Every field is extracted independently; an
absent match leaves the documented default.  For a `VRB` wind the stored
direction and speed are zeroed, but an absent gust group still defaults to the
matched speed figure (line 215 uses the raw `speed` group). -/
def parse_metar (metar : String) : MetarResult :=
  let l := metar.toList
  let windM := searchWB windAt false l
  { airport := firstToken l
    time_utc := (searchWB timeAt false l).map renderTime
    wind_direction :=
      match windM with
      | some (some dir, _, _) => dir
      | some (none, _, _) => 0
      | none => 0
    wind_speed_kt :=
      match windM with
      | some (some _, sp, _) => sp
      | some (none, _, _) => 0
      | none => 0
    wind_gust_kt :=
      match windM with
      | some (_, _, some g) => g
      | some (_, sp, none) => sp
      | none => 0
    variable_wind_dir := (searchWB varWindAt false l).map renderVarWind
    temperature_c := (searchWB tempAt false l).map Prod.fst
    dewpoint_c := (searchWB tempAt false l).map Prod.snd
    pressure_inhg := searchWB pressureAt false l
    remarks := searchWB rmkAt false l }

/-! ### Performance report assembler (`__print_performance` / `print_performance`,
lines 319-362)

The printing function is modelled as a function producing the record of all
values it computes and prints for one runway row.  The numeric METAR fields it
reads and the runway record fields it reads are bundled in structures. -/

/-- The fields of the parsed-METAR dictionary read by `__print_performance`
(as numbers; the source would raise on absent temperature or pressure). -/
structure MetarData where
  wind_direction : ℝ
  wind_speed_kt : ℝ
  wind_gust_kt : ℝ
  temperature_c : ℝ
  pressure_inhg : ℝ

/-- The fields of a runway record (one row of `runways.csv`) read by
`print_performance` and `__print_performance`.  `le_heading_degT` is carried to
express that the source never reads it. -/
structure RunwayRec where
  length_ft : ℝ
  le_ident : String
  he_heading_degT : ℝ
  le_heading_degT : ℝ
  closed : ℕ

/-- Everything `__print_performance` computes for one row. -/
structure RunwayRow where
  name : String
  headwind : ℤ
  crosswind : ℤ
  to_dist : ℤ
  land_dist : ℤ
  headwind_gust : ℤ
  crosswind_gust : ℤ
  to_gust : ℤ
  land_gust : ℤ
  start_stop_calm : ℤ
  start_stop : ℤ
  start_stop_gust : ℤ

/-- `math.radians`. -/
noncomputable def radians (d : ℝ) : ℝ := d * (Real.pi / 180)

/-- `__print_performance` (lines 319-353): one performance row for a runway
end; `rev = true` is the reciprocal end (heading `(he_heading_degT + 180) %
360`, designator transformed by `rev_name`).  `none` models the exception
`rev_name` raises on a non-numeric designator. -/
noncomputable def perfRow (d : MetarData) (weight to_nw land_nw : ℝ)
    (rwy : RunwayRec) (rev : Bool) : Option RunwayRow :=
  let le := if rev = false then rwy.he_heading_degT else revHeading rwy.he_heading_degT
  (if rev = false then some rwy.le_ident else rev_name rwy.le_ident).map (fun name =>
    let headwind := pyInt (d.wind_speed_kt * Real.cos (radians (d.wind_direction - le)))
    let crosswind := pyInt (d.wind_speed_kt * Real.sin (radians (d.wind_direction - le)))
    let to_d := headwind_takeoff (↑headwind * 1.15) to_nw
    let land_d := headwind_land (↑headwind * 1.15) land_nw
    let headwind_gust := pyInt (d.wind_gust_kt * Real.cos (radians (d.wind_direction - le)))
    let crosswind_gust := pyInt (d.wind_gust_kt * Real.sin (radians (d.wind_direction - le)))
    let to_gust := headwind_takeoff (↑headwind_gust * 1.15) to_nw
    let land_gust := headwind_land (↑headwind_gust * 1.15) land_nw
    let tf := d.temperature_c * 9 / 5 + 32
    { name := name
      headwind := headwind
      crosswind := crosswind
      to_dist := to_d
      land_dist := land_d
      headwind_gust := headwind_gust
      crosswind_gust := crosswind_gust
      to_gust := to_gust
      land_gust := land_gust
      start_stop_calm := accelerate_stop_distance tf d.pressure_inhg weight 0
      start_stop := accelerate_stop_distance tf d.pressure_inhg weight (↑headwind_gust * 1.15)
      start_stop_gust := accelerate_stop_distance tf d.pressure_inhg weight (↑headwind_gust * 1.15) })

/-- `print_performance` (lines 355-362): skip closed runways and runway ends
whose designator ends in the water marker `W`; otherwise produce the forward
row and the reciprocal row, in that order. -/
noncomputable def print_performance (d : MetarData) (weight to_nw land_nw : ℝ)
    (rwy : RunwayRec) : List (Option RunwayRow) :=
  if rwy.closed = 1 then []
  else if rwy.le_ident.toList.getLast? = some 'W' then []
  else [perfRow d weight to_nw land_nw rwy false, perfRow d weight to_nw land_nw rwy true]

/-! ### Helper lemmas about the Python primitives -/

theorem pyInt_intCast (n : ℤ) : pyInt (n : ℝ) = n := by
  unfold pyInt
  split_ifs <;> simp

theorem floor_le_pyRound (x : ℝ) : ⌊x⌋ ≤ pyRound x := by
  unfold pyRound
  split_ifs <;> omega

theorem pyRound_le_floor_add_one (x : ℝ) : pyRound x ≤ ⌊x⌋ + 1 := by
  unfold pyRound
  split_ifs <;> omega

theorem pyRound_intCast (n : ℤ) : pyRound (n : ℝ) = n := by
  unfold pyRound
  rw [Int.fract_intCast, Int.floor_intCast]
  norm_num

theorem pyRound_mono {x y : ℝ} (hxy : x ≤ y) : pyRound x ≤ pyRound y := by
  rcases lt_or_eq_of_le (Int.floor_le_floor hxy) with hf | hf
  · calc pyRound x ≤ ⌊x⌋ + 1 := pyRound_le_floor_add_one x
      _ ≤ ⌊y⌋ := by omega
      _ ≤ pyRound y := floor_le_pyRound y
  · have hfr : Int.fract x ≤ Int.fract y := by
      simp only [Int.fract]
      rw [hf]
      linarith
    by_cases hx1 : Int.fract x < 1/2
    · have hl : pyRound x = ⌊x⌋ := by
        unfold pyRound
        rw [if_pos hx1]
      rw [hl, hf]
      exact floor_le_pyRound y
    · have hy1 : ¬ Int.fract y < 1/2 := fun hlt => hx1 (lt_of_le_of_lt hfr hlt)
      by_cases hx2 : Int.fract x = 1/2
      · by_cases hy2 : Int.fract y = 1/2
        · unfold pyRound
          rw [hf, if_neg hx1, if_neg hy1, if_pos hx2, if_pos hy2]
        · have hr : pyRound y = ⌊y⌋ + 1 := by
            unfold pyRound
            rw [if_neg hy1, if_neg hy2]
          rw [hr]
          calc pyRound x ≤ ⌊x⌋ + 1 := pyRound_le_floor_add_one x
            _ = ⌊y⌋ + 1 := by omega
      · have hy2 : ¬ Int.fract y = 1/2 := by
          intro h2
          exact hx2 (le_antisymm (h2 ▸ hfr) (not_lt.1 hx1))
        have hl : pyRound x = ⌊x⌋ + 1 := by
          unfold pyRound
          rw [if_neg hx1, if_neg hx2]
        have hr : pyRound y = ⌊y⌋ + 1 := by
          unfold pyRound
          rw [if_neg hy1, if_neg hy2]
        rw [hl, hr, hf]

theorem pyMod_sub (a b : ℝ) (n : ℤ) (hb : 0 < b) (h1 : (n : ℝ) * b ≤ a)
    (h2 : a < ((n : ℝ) + 1) * b) : pyMod a b = a - b * n := by
  have hf : ⌊a / b⌋ = n := by
    rw [Int.floor_eq_iff]
    refine ⟨?_, ?_⟩
    · rw [le_div_iff₀ hb]
      exact h1
    · rw [div_lt_iff₀ hb]
      linarith
  rw [pyMod, hf]

theorem revHeading_involution {h : ℝ} (h0 : 0 ≤ h) (h1 : h < 360) :
    revHeading (revHeading h) = h := by
  rcases lt_or_le h 180 with hc | hc
  · have e1 : revHeading h = h + 180 := by
      have e := pyMod_sub (h + 180) 360 0 (by norm_num) (by push_cast; linarith)
        (by push_cast; linarith)
      simp only [revHeading, e]
      push_cast
      ring
    rw [e1]
    have e2 := pyMod_sub (h + 180 + 180) 360 1 (by norm_num) (by push_cast; linarith)
      (by push_cast; linarith)
    simp only [revHeading, e2]
    push_cast
    ring
  · have e1 : revHeading h = h - 180 := by
      have e := pyMod_sub (h + 180) 360 1 (by norm_num) (by push_cast; linarith)
        (by push_cast; linarith)
      simp only [revHeading, e]
      push_cast
      ring
    rw [e1]
    have e2 := pyMod_sub (h - 180 + 180) 360 0 (by norm_num) (by push_cast; linarith)
      (by push_cast; linarith)
    simp only [revHeading, e2]
    push_cast
    ring

theorem temp_factor_pos {t : ℝ} (h : -60 ≤ t) : 0 < temp_factor t := by
  unfold temp_factor
  apply div_pos <;> [linarith; norm_num]

theorem altitude_factor_pos (x : ℝ) : 0 < altitude_factor x := by
  simp only [altitude_factor]
  split_ifs with h1 h2 h3
  · exact lt_of_lt_of_le (by norm_num) (le_max_left _ _)
  · exact Real.rpow_pos_of_pos (lt_of_lt_of_le (by norm_num) (le_max_left _ _)) _
  · push_neg at h1
    exact Real.rpow_pos_of_pos (by linarith) _
  · norm_num

theorem headwind_factor_pos (h : ℝ) : 0 < headwind_factor h :=
  lt_of_lt_of_le (by norm_num) (le_max_left _ _)

theorem temp_correction_pos (t : ℝ) : 0 < temp_correction t := by
  unfold temp_correction
  positivity

theorem altitude_correction_pos (x : ℝ) : 0 < altitude_correction x := by
  unfold altitude_correction
  split_ifs with h1
  · have hnn : (0:ℝ) ≤ (x / 8000.0) ^ (1.2:ℝ) * 0.12 :=
      mul_nonneg (Real.rpow_nonneg (div_nonneg h1 (by norm_num)) _) (by norm_num)
    linarith
  · exact lt_of_lt_of_le (by norm_num) (le_max_left _ _)

theorem weight_correction_pos (w : ℝ) : 0 < weight_correction w := by
  unfold weight_correction
  positivity

/-- The weight-dependent part `weight_factor * weight_correction` of the
accelerate-stop product is non-decreasing (its derivative
`(20000000 + (w - 4400) * (3 * w - 4400)) / 8.8e10` is everywhere positive). -/
theorem weight_product_mono {a b : ℝ} (hab : a ≤ b) :
    weight_factor a * weight_correction a ≤ weight_factor b * weight_correction b := by
  unfold weight_factor weight_correction
  have hQ : (0:ℝ) ≤ a^2 + a*b + b^2 - 8800*(a+b) + 39360000 := by
    nlinarith [sq_nonneg (a - b), sq_nonneg (3*(a+b) - 17600)]
  nlinarith [mul_nonneg (sub_nonneg.2 hab) hQ]

theorem headwind_factor_antitone {a b : ℝ} (hab : a ≤ b) :
    headwind_factor b ≤ headwind_factor a := by
  unfold headwind_factor
  exact max_le_max le_rfl (min_le_min le_rfl (by linarith))

theorem clamp_mono {lo hi a b : ℝ} (hab : a ≤ b) :
    max lo (min hi a) ≤ max lo (min hi b) :=
  max_le_max le_rfl (min_le_min le_rfl hab)

/-- Monotonicity in weight of the full accelerate-stop product, for any clamped
temperature (`-60 ≤ T`). -/
theorem asd_product_weight_mono (T PA H W1 W2 : ℝ) (hT : -60 ≤ T) (hW : W1 ≤ W2) :
    1800.0 * temp_factor T * altitude_factor PA * weight_factor W1 * headwind_factor H *
      temp_correction T * altitude_correction PA * weight_correction W1 ≤
    1800.0 * temp_factor T * altitude_factor PA * weight_factor W2 * headwind_factor H *
      temp_correction T * altitude_correction PA * weight_correction W2 := by
  have p1 := temp_factor_pos hT
  have p2 := altitude_factor_pos PA
  have p3 := headwind_factor_pos H
  have p4 := temp_correction_pos T
  have p5 := altitude_correction_pos PA
  have hK : (0:ℝ) ≤ 1800.0 * temp_factor T * altitude_factor PA * headwind_factor H *
      temp_correction T * altitude_correction PA := by
    have := mul_pos (mul_pos (mul_pos (mul_pos (mul_pos
      (by norm_num : (0:ℝ) < 1800.0) p1) p2) p3) p4) p5
    linarith
  calc 1800.0 * temp_factor T * altitude_factor PA * weight_factor W1 * headwind_factor H *
        temp_correction T * altitude_correction PA * weight_correction W1
      = (1800.0 * temp_factor T * altitude_factor PA * headwind_factor H * temp_correction T *
          altitude_correction PA) * (weight_factor W1 * weight_correction W1) := by ring
    _ ≤ (1800.0 * temp_factor T * altitude_factor PA * headwind_factor H * temp_correction T *
          altitude_correction PA) * (weight_factor W2 * weight_correction W2) :=
        mul_le_mul_of_nonneg_left (weight_product_mono hW) hK
    _ = 1800.0 * temp_factor T * altitude_factor PA * weight_factor W2 * headwind_factor H *
          temp_correction T * altitude_correction PA * weight_correction W2 := by ring

/-- Antitonicity in headwind of the full accelerate-stop product, for any
clamped temperature (`-60 ≤ T`) and non-negative clamped weight. -/
theorem asd_product_headwind_antitone (T PA W H1 H2 : ℝ) (hT : -60 ≤ T) (hW : 0 ≤ W)
    (hH : H1 ≤ H2) :
    1800.0 * temp_factor T * altitude_factor PA * weight_factor W * headwind_factor H2 *
      temp_correction T * altitude_correction PA * weight_correction W ≤
    1800.0 * temp_factor T * altitude_factor PA * weight_factor W * headwind_factor H1 *
      temp_correction T * altitude_correction PA * weight_correction W := by
  have p1 := temp_factor_pos hT
  have p2 := altitude_factor_pos PA
  have p4 := temp_correction_pos T
  have p5 := altitude_correction_pos PA
  have p6 := weight_correction_pos W
  have pw : (0:ℝ) ≤ weight_factor W := by
    unfold weight_factor
    exact div_nonneg hW (by norm_num)
  have hK : (0:ℝ) ≤ 1800.0 * temp_factor T * altitude_factor PA * weight_factor W *
      temp_correction T * altitude_correction PA * weight_correction W := by
    have h0 : (0:ℝ) < 1800.0 * temp_factor T * altitude_factor PA := by
      have := mul_pos (mul_pos (by norm_num : (0:ℝ) < 1800.0) p1) p2
      linarith
    have := mul_nonneg (mul_nonneg (mul_nonneg (mul_nonneg (le_of_lt h0) pw)
      (le_of_lt p4)) (le_of_lt p5)) (le_of_lt p6)
    linarith
  calc 1800.0 * temp_factor T * altitude_factor PA * weight_factor W * headwind_factor H2 *
        temp_correction T * altitude_correction PA * weight_correction W
      = (1800.0 * temp_factor T * altitude_factor PA * weight_factor W * temp_correction T *
          altitude_correction PA * weight_correction W) * headwind_factor H2 := by ring
    _ ≤ (1800.0 * temp_factor T * altitude_factor PA * weight_factor W * temp_correction T *
          altitude_correction PA * weight_correction W) * headwind_factor H1 :=
        mul_le_mul_of_nonneg_left (headwind_factor_antitone hH) hK
    _ = 1800.0 * temp_factor T * altitude_factor PA * weight_factor W * headwind_factor H1 *
          temp_correction T * altitude_correction PA * weight_correction W := by ring

theorem altitude_factor_zero : altitude_factor 0 = 1 := by
  simp only [altitude_factor]
  norm_num [min_def, max_def]

theorem altitude_correction_zero : altitude_correction 0 = 1 := by
  simp only [altitude_correction]
  rw [if_pos (by norm_num : (0:ℝ) ≥ 0)]
  rw [show (0:ℝ) / 8000.0 = 0 by norm_num]
  rw [Real.zero_rpow (by norm_num : (1.2:ℝ) ≠ 0)]
  norm_num

theorem altitude_factor_15000_eq :
    altitude_factor 15000 = (0.896866 : ℝ) ^ (-4.2561 : ℝ) := by
  simp only [altitude_factor]
  norm_num [min_def, max_def]

theorem altitude_factor_15000_lt_four : altitude_factor 15000 < 4 := by
  rw [altitude_factor_15000_eq]
  have hb0 : (0:ℝ) < 0.896866 := by norm_num
  have h5 : (0.896866 : ℝ) ^ ((5:ℕ):ℝ) = (0.896866 : ℝ) ^ (5:ℕ) := Real.rpow_natCast _ 5
  have hge : (0.896866 : ℝ) ^ ((5:ℕ):ℝ) ≤ (0.896866 : ℝ) ^ (4.2561:ℝ) :=
    Real.rpow_le_rpow_of_exponent_ge hb0 (by norm_num) (by push_cast; norm_num)
  have hgt : (1/4 : ℝ) < (0.896866 : ℝ) ^ (4.2561:ℝ) := by
    calc (1/4:ℝ) < (0.896866:ℝ) ^ (5:ℕ) := by norm_num
      _ = (0.896866:ℝ) ^ ((5:ℕ):ℝ) := h5.symm
      _ ≤ _ := hge
  rw [show (-4.2561 : ℝ) = -(4.2561:ℝ) by norm_num, Real.rpow_neg (le_of_lt hb0)]
  calc ((0.896866:ℝ) ^ (4.2561:ℝ))⁻¹ < (1/4 : ℝ)⁻¹ :=
        inv_strictAnti₀ (by norm_num) hgt
    _ = 4 := by norm_num

/-! ### Claim theorems -/

/-- Claim C9: for every elevation and altimeter setting, when the observed
temperature equals the standard temperature `15 - elev / 1000 * 2` at that
elevation, the density altitude equals the pressure altitude. -/
theorem c9_density_eq_pressure (elev altimeter oat : ℝ)
    (h : oat = 15 - elev / 1000 * 2) :
    density_altitude elev altimeter oat = pressure_altitude elev altimeter := by
  unfold density_altitude
  rw [h]
  simp [pyInt_intCast]

theorem c9_witness :
    (13 : ℝ) = 15 - 1000 / 1000 * 2 ∧
    density_altitude 1000 29.92 13 = pressure_altitude 1000 29.92 :=
  ⟨by norm_num, c9_density_eq_pressure 1000 29.92 13 (by norm_num)⟩

/-- Claim C3 (counterexample): parsing `KXYZ 311956Z VRB05KT A2992` does NOT
yield gust 0 — the gust field defaults to the matched raw speed figure `05`,
which the variable-direction handling does not reset. -/
theorem c3_counterexample :
    ¬ ((parse_metar ("KXYZ 311956Z VRB05KT A2992")).wind_direction = 0 ∧
       (parse_metar ("KXYZ 311956Z VRB05KT A2992")).wind_speed_kt = 0 ∧
       (parse_metar ("KXYZ 311956Z VRB05KT A2992")).wind_gust_kt = 0) := by
  decide

/-- Claim C3 (amended): parsing the variable-direction report
`KXYZ 311956Z VRB05KT A2992` yields wind direction 0, wind speed 0, and gust 5:
the absent gust group defaults to the reported speed figure (line 215 reads the
raw matched `speed` group, which the `VRB` branch does not zero). -/
theorem c3_variable_wind_parse :
    (parse_metar ("KXYZ 311956Z VRB05KT A2992")).wind_direction = 0 ∧
    (parse_metar ("KXYZ 311956Z VRB05KT A2992")).wind_speed_kt = 0 ∧
    (parse_metar ("KXYZ 311956Z VRB05KT A2992")).wind_gust_kt = 5 := by
  decide

/-- Claim C4 (counterexample): the reciprocal transform is not an involution on
designator strings: `09L` maps to `27R`, which maps back to `9L`, not `09L`
(the leading zero is lost because `str()` does not zero-pad). -/
theorem c4_counterexample :
    (rev_name ("09L")).bind rev_name = some ("9L") ∧
    ("9L" : String) ≠ ("09L" : String) := by
  decide

/-- Claim C4 (amended): applying the reciprocal transform twice returns the
original heading for headings in `[0, 360)`; on two-digit designators (with
optional `L`/`R` suffix) it returns the original string exactly when both the
designator number and its reciprocal are ≥ 10 (numbers 10-18 and 28-36); for
numbers 1-9 the original string comes back without its leading zero; and for
numbers 19-27 with a suffix the second application fails (the intermediate
designator renders single-digit, so its first two characters are not numeric
and `int()` raises). -/
theorem c4_reciprocal_involution :
    (∀ n ∈ Finset.Icc (1 : ℕ) 36,
      ∀ suf ∈ ([("" : String), ("L" : String), ("R" : String)] : List String),
        ((10 ≤ n ∧ n ≤ 18) ∨ 28 ≤ n →
          (rev_name (pad2 n ++ suf)).bind rev_name = some (pad2 n ++ suf)) ∧
        (n ≤ 9 →
          (rev_name (pad2 n ++ suf)).bind rev_name = some (Nat.repr n ++ suf)) ∧
        (19 ≤ n ∧ n ≤ 27 ∧ suf = ("" : String) →
          (rev_name (pad2 n ++ suf)).bind rev_name = some (pad2 n ++ suf)) ∧
        (19 ≤ n ∧ n ≤ 27 ∧ suf ≠ ("" : String) →
          (rev_name (pad2 n ++ suf)).bind rev_name = none)) ∧
    (∀ h : ℝ, 0 ≤ h → h < 360 → revHeading (revHeading h) = h) := by
  constructor
  · decide
  · intro h h0 h1
    exact revHeading_involution h0 h1

/-- Claim C6: for every input quadruple the accelerate-stop distance lies in
`[600, 8000]` ft, and for fixed temperature and pressure altitude it is
monotonically non-decreasing in gross weight and monotonically non-increasing
in headwind. -/
theorem c6_bounds_and_monotonicity (t pa w w2 hw hw2 : ℝ)
    (hww : w ≤ w2) (hhh : hw ≤ hw2) :
    (600 ≤ accelerate_stop_distance t pa w hw ∧
      accelerate_stop_distance t pa w hw ≤ 8000) ∧
    accelerate_stop_distance t pa w hw ≤ accelerate_stop_distance t pa w2 hw ∧
    accelerate_stop_distance t pa w hw2 ≤ accelerate_stop_distance t pa w hw := by
  refine ⟨⟨?_, ?_⟩, ?_, ?_⟩
  · simp only [accelerate_stop_distance]
    have h6 : ((600:ℤ):ℝ) ≤ max 600 (min 8000
        (1800.0 * temp_factor (max (-60) (min 140 t)) *
          altitude_factor (max (-2000) (min 15000 pa)) *
          weight_factor (max 3000 (min 5600 w)) *
          headwind_factor (max 0 (min 25 hw)) *
          temp_correction (max (-60) (min 140 t)) *
          altitude_correction (max (-2000) (min 15000 pa)) *
          weight_correction (max 3000 (min 5600 w)))) := by
      push_cast
      exact le_max_left _ _
    have hm := pyRound_mono h6
    rw [pyRound_intCast] at hm
    exact hm
  · simp only [accelerate_stop_distance]
    have h8 : max 600 (min 8000
        (1800.0 * temp_factor (max (-60) (min 140 t)) *
          altitude_factor (max (-2000) (min 15000 pa)) *
          weight_factor (max 3000 (min 5600 w)) *
          headwind_factor (max 0 (min 25 hw)) *
          temp_correction (max (-60) (min 140 t)) *
          altitude_correction (max (-2000) (min 15000 pa)) *
          weight_correction (max 3000 (min 5600 w)))) ≤ ((8000:ℤ):ℝ) := by
      push_cast
      exact max_le (by norm_num) (min_le_left _ _)
    have hm := pyRound_mono h8
    rw [pyRound_intCast] at hm
    exact hm
  · simp only [accelerate_stop_distance]
    exact pyRound_mono (max_le_max le_rfl (min_le_min le_rfl
      (asd_product_weight_mono _ _ _ _ _ (le_max_left _ _) (clamp_mono hww))))
  · simp only [accelerate_stop_distance]
    exact pyRound_mono (max_le_max le_rfl (min_le_min le_rfl
      (asd_product_headwind_antitone _ _ _ _ _ (le_max_left _ _)
        (le_trans (by norm_num) (le_max_left _ _)) (clamp_mono hhh))))

theorem c6_witness :
    ((4000:ℝ) ≤ 5000 ∧ (0:ℝ) ≤ 10) ∧
    ((600 ≤ accelerate_stop_distance 59 0 4000 0 ∧
       accelerate_stop_distance 59 0 4000 0 ≤ 8000) ∧
      accelerate_stop_distance 59 0 4000 0 ≤ accelerate_stop_distance 59 0 5000 0 ∧
      accelerate_stop_distance 59 0 4000 10 ≤ accelerate_stop_distance 59 0 4000 0) :=
  ⟨⟨by norm_num, by norm_num⟩,
    c6_bounds_and_monotonicity 59 0 4000 5000 0 10 (by norm_num) (by norm_num)⟩

/-- Claim C7: at standard conditions — 59 °F, pressure altitude 0 ft, 4400 lb,
no headwind — every factor equals 1 exactly and the accelerate-stop distance is
the 1800 ft baseline. -/
theorem c7_standard_conditions : accelerate_stop_distance 59 0 4400 0 = 1800 := by
  simp only [accelerate_stop_distance]
  rw [show max (-60:ℝ) (min 140 59) = 59 by norm_num [min_def, max_def]]
  rw [show max (-2000:ℝ) (min 15000 0) = 0 by norm_num [min_def, max_def]]
  rw [show max (3000:ℝ) (min 5600 4400) = 4400 by norm_num [min_def, max_def]]
  rw [show max (0:ℝ) (min 25 0) = 0 by norm_num [min_def, max_def]]
  rw [altitude_factor_zero, altitude_correction_zero]
  rw [show temp_factor 59 = 1 by norm_num [temp_factor]]
  rw [show weight_factor 4400 = 1 by norm_num [weight_factor]]
  rw [show headwind_factor 0 = 1 by norm_num [headwind_factor, min_def, max_def]]
  rw [show temp_correction 59 = 1 by norm_num [temp_correction]]
  rw [show weight_correction 4400 = 1 by norm_num [weight_correction]]
  rw [show (1800.0:ℝ) * 1 * 1 * 1 * 1 * 1 * 1 * 1 = 1800 by norm_num]
  rw [show max (600:ℝ) (min 8000 1800) = 1800 by norm_num [min_def, max_def]]
  rw [show (1800:ℝ) = ((1800:ℤ):ℝ) by norm_num]
  exact pyRound_intCast 1800

/-- Claim C5 (counterexample): a pressure-altitude argument of 40000 ft (above
36089 ft) does not produce the 4.0 altitude factor — after the `[-2000, 15000]`
clamp the power-law branch applies, giving `0.896866 ^ (-4.2561) ≈ 1.59`. -/
theorem c5_counterexample :
    altitude_factor (max (-2000) (min 15000 (40000:ℝ))) ≠ 4 := by
  rw [show max (-2000:ℝ) (min 15000 40000) = 15000 by norm_num [min_def, max_def]]
  exact ne_of_lt altitude_factor_15000_lt_four

/-- Claim C5 (amended): for every pressure-altitude argument above 36089 ft the
altitude factor used by `accelerate_stop_distance` is the power-law factor at
the 15000 ft clamp — `(1 - 6.8756e-6 * 15000) ^ (-4.2561) = 0.896866 ^
(-4.2561) < 4` — because the input clamp keeps the value in `[-2000, 15000]`,
so the first branch's `≥ -2000` test always succeeds and the 4.0
above-tropopause branch is unreachable. -/
theorem c5_clamped_altitude_factor (_temperature_f _gross_weight_lbs _headwind_mph pa : ℝ)
    (hpa : 36089 < pa) :
    altitude_factor (max (-2000) (min 15000 pa)) = (0.896866 : ℝ) ^ (-4.2561 : ℝ) ∧
    altitude_factor (max (-2000) (min 15000 pa)) < 4 := by
  have hc : max (-2000:ℝ) (min 15000 pa) = 15000 := by
    rw [min_eq_left (by linarith), max_eq_right (by norm_num)]
  rw [hc]
  exact ⟨altitude_factor_15000_eq, altitude_factor_15000_lt_four⟩

theorem c5_witness :
    (36089 : ℝ) < 40000 ∧
    (altitude_factor (max (-2000) (min 15000 (40000:ℝ))) = (0.896866 : ℝ) ^ (-4.2561 : ℝ) ∧
      altitude_factor (max (-2000) (min 15000 (40000:ℝ))) < 4) :=
  ⟨by norm_num, c5_clamped_altitude_factor 59 4400 0 40000 (by norm_num)⟩

theorem c4_witness :
    (10 ∈ Finset.Icc (1 : ℕ) 36 ∧
      ("L" : String) ∈ ([("" : String), ("L" : String), ("R" : String)] : List String) ∧
      ((10 ≤ 10 ∧ 10 ≤ 18) ∨ 28 ≤ 10) ∧ (0 : ℝ) ≤ 90 ∧ (90 : ℝ) < 360) ∧
    (rev_name (pad2 10 ++ ("L" : String))).bind rev_name = some (pad2 10 ++ ("L" : String)) ∧
    revHeading (revHeading 90) = 90 :=
  ⟨⟨by decide, by decide, by decide, by norm_num, by norm_num⟩,
    ((c4_reciprocal_involution.1 10 (by decide) ("L") (by decide)).1 (by decide)),
    c4_reciprocal_involution.2 90 (by norm_num) (by norm_num)⟩

/-- Claim C8: for every input string — empty, truncated or malformed — the
parser returns an observation record (it is a total function: every `int()` /
`float()` in the source is applied to matched digit groups, so no exception
can be raised), and every field whose pattern finds no match keeps its
documented default: direction 0, speeds 0, temperature, dewpoint, pressure and
remarks absent (likewise timestamp, variable-wind range and station). -/
theorem c8_parser_defaults (s : String) :
    (searchWB windAt false s.toList = none →
      (parse_metar s).wind_direction = 0 ∧ (parse_metar s).wind_speed_kt = 0 ∧
        (parse_metar s).wind_gust_kt = 0) ∧
    (searchWB tempAt false s.toList = none →
      (parse_metar s).temperature_c = none ∧ (parse_metar s).dewpoint_c = none) ∧
    (searchWB pressureAt false s.toList = none → (parse_metar s).pressure_inhg = none) ∧
    (searchWB rmkAt false s.toList = none → (parse_metar s).remarks = none) ∧
    (searchWB timeAt false s.toList = none → (parse_metar s).time_utc = none) ∧
    (searchWB varWindAt false s.toList = none → (parse_metar s).variable_wind_dir = none) ∧
    (firstToken s.toList = none → (parse_metar s).airport = none) := by
  refine ⟨?_, ?_, ?_, ?_, ?_, ?_, ?_⟩ <;> intro h <;>
    simp only [String.toList] at h <;> simp [parse_metar, h]

theorem c8_witness :
    searchWB windAt false (String.toList ("")) = none ∧
    ((parse_metar ("")).wind_direction = 0 ∧ (parse_metar ("")).wind_speed_kt = 0 ∧
      (parse_metar ("")).wind_gust_kt = 0) ∧
    ((parse_metar ("")).temperature_c = none ∧ (parse_metar ("")).dewpoint_c = none) ∧
    (parse_metar ("")).pressure_inhg = none ∧
    (parse_metar ("")).remarks = none :=
  ⟨by decide, (c8_parser_defaults ("")).1 (by decide),
    (c8_parser_defaults ("")).2.1 (by decide),
    (c8_parser_defaults ("")).2.2.1 (by decide),
    (c8_parser_defaults ("")).2.2.2.1 (by decide)⟩

/-- Claim C10: both assembled rows derive their heading from the record's
`he_heading_degT` field: the forward row — labelled with the `le_ident`
designator — decomposes wind against `he_heading_degT` itself, the reciprocal
row against `(he_heading_degT + 180) % 360`, and the `le_heading_degT` field is
never read (changing it changes nothing). -/
theorem c10_heading_source (d : MetarData) (weight to_nw land_nw : ℝ)
    (rwy : RunwayRec) (row : RunwayRow)
    (hf : perfRow d weight to_nw land_nw rwy false = some row) :
    row.name = rwy.le_ident ∧
    row.headwind = pyInt (d.wind_speed_kt *
      Real.cos (radians (d.wind_direction - rwy.he_heading_degT))) ∧
    row.crosswind = pyInt (d.wind_speed_kt *
      Real.sin (radians (d.wind_direction - rwy.he_heading_degT))) ∧
    row.headwind_gust = pyInt (d.wind_gust_kt *
      Real.cos (radians (d.wind_direction - rwy.he_heading_degT))) ∧
    (∀ row2 : RunwayRow, perfRow d weight to_nw land_nw rwy true = some row2 →
      row2.headwind = pyInt (d.wind_speed_kt *
        Real.cos (radians (d.wind_direction - revHeading rwy.he_heading_degT))) ∧
      row2.headwind_gust = pyInt (d.wind_gust_kt *
        Real.cos (radians (d.wind_direction - revHeading rwy.he_heading_degT)))) ∧
    (∀ x : ℝ, ∀ b : Bool, perfRow d weight to_nw land_nw
      { rwy with le_heading_degT := x } b = perfRow d weight to_nw land_nw rwy b) := by
  unfold perfRow at hf
  simp only [eq_self_iff_true, if_true, Option.map_some', Option.some.injEq] at hf
  subst hf
  refine ⟨rfl, rfl, rfl, rfl, ?_, ?_⟩
  · intro row2 h2
    unfold perfRow at h2
    simp only [Bool.true_eq_false, if_false] at h2
    rcases hrn : rev_name rwy.le_ident with _ | nm
    · rw [hrn] at h2
      simp at h2
    · rw [hrn] at h2
      simp only [Option.map_some', Option.some.injEq] at h2
      subst h2
      exact ⟨rfl, rfl⟩
  · intro x b
    rfl

/-- Claim C1 (what the code actually does): for every row assembled for an
eligible runway end, the takeoff and landing distances of the steady-wind row
are computed from the steady headwind scaled by 1.15, the gust row's from the
gust headwind scaled by 1.15 — but the steady-wind row's accelerate-stop
distance is computed from the GUST headwind (line 345), so it always equals
the gust row's accelerate-stop distance. -/
theorem c1_assembler_rows (d : MetarData) (weight to_nw land_nw : ℝ)
    (rwy : RunwayRec) (row : RunwayRow)
    (ho : some row ∈ print_performance d weight to_nw land_nw rwy) :
    row.to_dist = headwind_takeoff (↑row.headwind * 1.15) to_nw ∧
    row.land_dist = headwind_land (↑row.headwind * 1.15) land_nw ∧
    row.to_gust = headwind_takeoff (↑row.headwind_gust * 1.15) to_nw ∧
    row.land_gust = headwind_land (↑row.headwind_gust * 1.15) land_nw ∧
    row.start_stop = accelerate_stop_distance (d.temperature_c * 9 / 5 + 32)
      d.pressure_inhg weight (↑row.headwind_gust * 1.15) ∧
    row.start_stop = row.start_stop_gust := by
  unfold print_performance at ho
  split_ifs at ho
  · simp at ho
  · simp at ho
  · simp only [List.mem_cons, List.not_mem_nil, or_false] at ho
    rcases ho with ho | ho
    all_goals {
      replace ho := ho.symm
      unfold perfRow at ho
      first
      | (simp only [eq_self_iff_true, if_true, Option.map_some', Option.some.injEq] at ho
         subst ho
         exact ⟨rfl, rfl, rfl, rfl, rfl, rfl⟩)
      | (simp only [Bool.true_eq_false, if_false] at ho
         rcases hrn : rev_name rwy.le_ident with _ | nm
         · rw [hrn] at ho
           simp at ho
         · rw [hrn] at ho
           simp only [Option.map_some', Option.some.injEq] at ho
           subst ho
           exact ⟨rfl, rfl, rfl, rfl, rfl, rfl⟩) }

/-- Claim C2 (what the code actually does): every accelerate-stop distance of
an assembled row — calm, steady and gust — receives the raw altimeter reading
`d['pressure_inhg']` (inches of mercury) as its pressure-altitude argument,
not the pressure altitude in feet derived by `pressure_altitude`. -/
theorem c2_pressure_argument (d : MetarData) (weight to_nw land_nw : ℝ)
    (rwy : RunwayRec) (row : RunwayRow)
    (ho : some row ∈ print_performance d weight to_nw land_nw rwy) :
    row.start_stop_calm = accelerate_stop_distance (d.temperature_c * 9 / 5 + 32)
      d.pressure_inhg weight 0 ∧
    row.start_stop_gust = accelerate_stop_distance (d.temperature_c * 9 / 5 + 32)
      d.pressure_inhg weight (↑row.headwind_gust * 1.15) := by
  unfold print_performance at ho
  split_ifs at ho
  · simp at ho
  · simp at ho
  · simp only [List.mem_cons, List.not_mem_nil, or_false] at ho
    rcases ho with ho | ho
    all_goals {
      replace ho := ho.symm
      unfold perfRow at ho
      first
      | (simp only [eq_self_iff_true, if_true, Option.map_some', Option.some.injEq] at ho
         subst ho
         exact ⟨rfl, rfl⟩)
      | (simp only [Bool.true_eq_false, if_false] at ho
         rcases hrn : rev_name rwy.le_ident with _ | nm
         · rw [hrn] at ho
           simp at ho
         · rw [hrn] at ho
           simp only [Option.map_some', Option.some.injEq] at ho
           subst ho
           exact ⟨rfl, rfl⟩) }

/-! ### Concrete witness data: METAR 360° 10 kt gusting 20 kt, runway `09`
with he-heading 90°, elevation data giving a 5000 ft derived pressure
altitude would differ visibly from the 29.92 inHg value actually passed. -/

noncomputable def d0 : MetarData := ⟨360, 10, 20, 15, 29.92⟩

noncomputable def rwy0 : RunwayRec := ⟨3000, ("09"), 90, 270, 0⟩

noncomputable def row0 : RunwayRow :=
  (perfRow d0 4400 1500 1600 rwy0 false).get (by rfl)

theorem c10_witness :
    perfRow d0 4400 1500 1600 rwy0 false = some row0 ∧
    (row0.name = rwy0.le_ident ∧
      row0.headwind = pyInt (d0.wind_speed_kt *
        Real.cos (radians (d0.wind_direction - rwy0.he_heading_degT))) ∧
      row0.crosswind = pyInt (d0.wind_speed_kt *
        Real.sin (radians (d0.wind_direction - rwy0.he_heading_degT))) ∧
      row0.headwind_gust = pyInt (d0.wind_gust_kt *
        Real.cos (radians (d0.wind_direction - rwy0.he_heading_degT))) ∧
      (∀ row2 : RunwayRow, perfRow d0 4400 1500 1600 rwy0 true = some row2 →
        row2.headwind = pyInt (d0.wind_speed_kt *
          Real.cos (radians (d0.wind_direction - revHeading rwy0.he_heading_degT))) ∧
        row2.headwind_gust = pyInt (d0.wind_gust_kt *
          Real.cos (radians (d0.wind_direction - revHeading rwy0.he_heading_degT)))) ∧
      (∀ x : ℝ, ∀ b : Bool, perfRow d0 4400 1500 1600
        { rwy0 with le_heading_degT := x } b = perfRow d0 4400 1500 1600 rwy0 b)) := by
  have hsome : perfRow d0 4400 1500 1600 rwy0 false = some row0 := (Option.some_get _).symm
  exact ⟨hsome, c10_heading_source d0 4400 1500 1600 rwy0 row0 hsome⟩

theorem c1_witness :
    some row0 ∈ print_performance d0 4400 1500 1600 rwy0 ∧
    (row0.to_dist = headwind_takeoff (↑row0.headwind * 1.15) 1500 ∧
      row0.land_dist = headwind_land (↑row0.headwind * 1.15) 1600 ∧
      row0.to_gust = headwind_takeoff (↑row0.headwind_gust * 1.15) 1500 ∧
      row0.land_gust = headwind_land (↑row0.headwind_gust * 1.15) 1600 ∧
      row0.start_stop = accelerate_stop_distance (d0.temperature_c * 9 / 5 + 32)
        d0.pressure_inhg 4400 (↑row0.headwind_gust * 1.15) ∧
      row0.start_stop = row0.start_stop_gust) := by
  have hsome : perfRow d0 4400 1500 1600 rwy0 false = some row0 := (Option.some_get _).symm
  have ho : some row0 ∈ print_performance d0 4400 1500 1600 rwy0 := by
    rw [show print_performance d0 4400 1500 1600 rwy0 =
      [perfRow d0 4400 1500 1600 rwy0 false, perfRow d0 4400 1500 1600 rwy0 true] from rfl,
      hsome]
    exact List.mem_cons_self _ _
  exact ⟨ho, c1_assembler_rows d0 4400 1500 1600 rwy0 row0 ho⟩

theorem c2_witness :
    some row0 ∈ print_performance d0 4400 1500 1600 rwy0 ∧
    (row0.start_stop_calm = accelerate_stop_distance (d0.temperature_c * 9 / 5 + 32)
        d0.pressure_inhg 4400 0 ∧
      row0.start_stop_gust = accelerate_stop_distance (d0.temperature_c * 9 / 5 + 32)
        d0.pressure_inhg 4400 (↑row0.headwind_gust * 1.15)) := by
  have hsome : perfRow d0 4400 1500 1600 rwy0 false = some row0 := (Option.some_get _).symm
  have ho : some row0 ∈ print_performance d0 4400 1500 1600 rwy0 := by
    rw [show print_performance d0 4400 1500 1600 rwy0 =
      [perfRow d0 4400 1500 1600 rwy0 false, perfRow d0 4400 1500 1600 rwy0 true] from rfl,
      hsome]
    exact List.mem_cons_self _ _
  exact ⟨ho, c2_pressure_argument d0 4400 1500 1600 rwy0 row0 ho⟩

end Preflight
